import Mathlib

/-!
Verification of the tiger-rs driver (src/main.rs) and terminal module
(src/terminal.rs).

The repository's two source files are the compiler driver and the terminal
colouring helper.  The pipeline stages the driver calls (canon, asm_gen,
reg_alloc, frame, parser, semant, ...) live in modules that are not part of
the two files, so they are treated as abstract parameters of the embedding:
the driver's behaviour is modelled for every possible implementation of the
stages.  File writes are modelled as a list of written units (one element
per writeln call), and the driver's externally visible actions (file
creation, per-fragment stage calls, process spawns) as an event trace.
-/

/-- Model of the std PathBuf values the driver builds from the input file
name: a stem plus an optional extension (the part after the last dot).
Directory structure is irrelevant to the driver, which only ever swaps the
extension of the path it was given. -/
structure TigerPath where
  stem : String
  ext : Option String
deriving DecidableEq, Repr

/-- Model of PathBuf set_extension as the driver uses it: a non-empty
argument replaces the extension, the empty argument removes it. -/
def TigerPath.set_extension (p : TigerPath) (e : String) : TigerPath :=
  { stem := p.stem, ext := if e = "" then none else some e }

/-- Rendering of a path back to a string, as to_str produces it. -/
def TigerPath.render (p : TigerPath) : String :=
  match p.ext with
  | none => p.stem
  | some e => p.stem ++ "." ++ e

/-- Model of PathBuf from on a file name: split at the last dot. -/
def pathFrom (s : String) : TigerPath :=
  let parts := s.splitOn "."
  match parts with
  | [] => { stem := s, ext := none }
  | [_] => { stem := s, ext := none }
  | _ => { stem := String.intercalate "." parts.dropLast,
           ext := some (parts.getLast?.getD "") }

/-- Constant END_MARKER of src/main.rs line 88. -/
def END_MARKER : String := "__tiger_pointer_map_end"

/-- Constant POINTER_MAP_NAME of src/main.rs line 89. -/
def POINTER_MAP_NAME : String := "__tiger_pointer_map"

/-- Function to_nasm of src/main.rs lines 264-276: starts from a single
quote, folds over the characters of the input pushing either the escape
sequence (for quote, newline and tab, formatted from the numeric character
code) or the character itself, then pushes a closing single quote. -/
def to_nasm (string : String) : String :=
  let result := "'"
  let result := string.toList.foldl
    (fun result char =>
      result ++
        match char with
        | '\'' | '\n' | '\t' => "', " ++ toString char.toNat ++ ", '"
        | _ => String.singleton char)
    result
  result.push '\''

/-- Subroutine record returned by proc_entry_exit3 (frame module): a prolog
string, a body of instructions, and an epilog string. -/
structure Subroutine (Instr : Type) where
  prolog : String
  body : List Instr
  epilog : String

/-- Abstract pipeline stages and backend data the driver calls into.  These
live in repository modules outside the two source files, so the embedding
quantifies over them; the mutable Frame threaded through the stage methods
is passed and returned explicitly.  The two data_layout constants are
likewise parameters (the spec fixes only that the string header has the
GC's fixed data-layout size, with the type descriptor in its first slot). -/
structure Backend where
  Stmt : Type
  Instr : Type
  Frame : Type
  GenSt : Type
  TempMap : Type
  TempLabel : Type
  EscapingVars : Type
  external_functions : List String
  STRING_TYPE : String
  STRING_DATA_LAYOUT_SIZE : Nat
  proc_entry_exit1 : Frame → Stmt → Stmt × Frame
  linearize : Stmt → List Stmt
  basic_blocks : List Stmt → List (List Stmt) × String
  trace_schedule : List (List Stmt) → String → List Stmt
  gen_new : GenSt
  munch_statement : GenSt → Stmt → GenSt
  get_result : GenSt → List Instr
  proc_entry_exit2 : Frame → List Instr → EscapingVars → List Instr × Frame
  alloc : List Instr → Frame → TempMap →
    (List Instr × List (String × List TempLabel)) × Frame
  proc_entry_exit3 : Frame → List Instr → Subroutine Instr × Frame
  instr_to_string : Instr → String
  temp_label_to_label : TempLabel → String

/-- Fragment enum of the frame module, as the driver consumes it: function
bodies, string literals, and vtables.  The source field named class is
rendered cls here because class is a keyword. -/
inductive Fragment (B : Backend) where
  | Function (body : B.Stmt) (escaping_vars : B.EscapingVars)
      (frame : B.Frame) (temp_map : B.TempMap)
  | Str (label : String) (string : String)
  | VTable (cls : String) (methods : List String)

/-- Predicate picking out Function fragments. -/
def Fragment.isFunction {B : Backend} : Fragment B → Bool
  | .Function _ _ _ _ => true
  | _ => false

/-- Back-end processing of one Function fragment, src/main.rs lines
176-208: proc_entry_exit1, linearize, basic_blocks, trace_schedule with the
returned done label, maximal-munch generation over the scheduled
statements, proc_entry_exit2, register allocation, proc_entry_exit3, and
finally the lines written for the subroutine (prolog, each non-empty
rendered body instruction indented, epilog indented).  Returns the written
lines and the pointer-map entries that alloc returned for this function. -/
def processFunction (B : Backend) (body : B.Stmt)
    (escaping_vars : B.EscapingVars) (frame : B.Frame)
    (temp_map : B.TempMap) :
    List String × List (String × List B.TempLabel) :=
  let (body, frame) := B.proc_entry_exit1 frame body
  let statements := B.linearize body
  let (blocks, done_label) := B.basic_blocks statements
  let statements := B.trace_schedule blocks done_label
  let generator := statements.foldl B.munch_statement B.gen_new
  let instructions := B.get_result generator
  let (instructions, frame) := B.proc_entry_exit2 frame instructions escaping_vars
  let ((instructions, temp_map), frame) := B.alloc instructions frame temp_map
  let (subroutine, _) := B.proc_entry_exit3 frame instructions
  (subroutine.prolog ::
    ((subroutine.body.map B.instr_to_string).filter
      (fun instruction => !instruction.isEmpty)).map
      (fun instruction => "    " ++ instruction)
    ++ ["    " ++ subroutine.epilog],
   temp_map)

/-- Data-section lines for one fragment, src/main.rs lines 144-168.  A Str
fragment yields the label-and-type-descriptor line (a write followed by a
writeln on the same line), the zero quadwords padding the data layout, and
the NUL-terminated string bytes.  A VTable fragment yields the class label
line and then, when the method list is non-empty, one written unit holding
the method labels joined by a newline-and-dq separator (the source builds
it with join before a single writeln). -/
def dataLines (B : Backend) : Fragment B → List String
  | .Function _ _ _ _ => []
  | .Str label string =>
      ("    " ++ label ++ ": " ++ "dq " ++ B.STRING_TYPE)
      :: List.replicate (B.STRING_DATA_LAYOUT_SIZE - 1) "dq 0"
      ++ ["db " ++ to_nasm string ++ ", 0"]
  | .VTable cls methods =>
      (cls ++ ":")
      :: (if methods.isEmpty then []
          else ["    dq " ++ String.intercalate "\n    dq " methods])

/-- Events the driver performs, used to state temporal claims: file
creation, the per-fragment stage calls (indexed by the fragment's position
in the fragment list), the writing of a function's instructions and of the
pointer map, and the external process invocations. -/
inductive Event where
  | create_file (path : TigerPath)
  | stage_entry_exit1 (i : Nat)
  | stage_linearize (i : Nat)
  | stage_basic_blocks (i : Nat)
  | stage_trace_schedule (i : Nat)
  | stage_munch (i : Nat)
  | stage_entry_exit2 (i : Nat)
  | stage_alloc (i : Nat)
  | stage_entry_exit3 (i : Nat)
  | write_function (i : Nat)
  | write_pointer_map
  | run_nasm (args : List String)
  | run_ld (args : List String)
deriving DecidableEq, Repr

/-- Stage events of one Function fragment, in the order the source applies
them (src/main.rs lines 178-208). -/
def functionStageEvents (i : Nat) : List Event :=
  [Event.stage_entry_exit1 i, Event.stage_linearize i,
   Event.stage_basic_blocks i, Event.stage_trace_schedule i,
   Event.stage_munch i, Event.stage_entry_exit2 i, Event.stage_alloc i,
   Event.stage_entry_exit3 i, Event.write_function i]

/-- Loop over the fragments for the text section, src/main.rs lines
174-213: Function fragments are processed and written and their alloc
temp maps are pushed onto the pointer map accumulator; Str and VTable
fragments are skipped.  Returns the written lines, the accumulated
pointer-map entries (one list per function, in order) and the event
trace.  The index counts positions in the fragment list. -/
def textLoop (B : Backend) (i : Nat) :
    List (Fragment B) →
    List String × List (List (String × List B.TempLabel)) × List Event
  | [] => ([], [], [])
  | fragment :: rest =>
    match fragment with
    | .Function body escaping_vars frame temp_map =>
        let (lines, m) := processFunction B body escaping_vars frame temp_map
        let (ls, ms, evs) := textLoop B (i + 1) rest
        (lines ++ ls, m :: ms, functionStageEvents i ++ evs)
    | .Str _ _ => textLoop B (i + 1) rest
    | .VTable _ _ => textLoop B (i + 1) rest

/-- Pointer-map lines, src/main.rs lines 217-228: the table label; for
each function's map and each of its entries a dq of the call-site label,
one dq per pointer temp label, and a dq of the end marker; then one more
dq of the end marker and the end-marker label. -/
def pointerMapLines (B : Backend)
    (pointer_map : List (List (String × List B.TempLabel))) : List String :=
  (POINTER_MAP_NAME ++ ":")
  :: pointer_map.flatMap
      (fun map => map.flatMap
        (fun entry =>
          ("    dq " ++ entry.1)
          :: entry.2.map
              (fun temp_label => "    dq " ++ B.temp_label_to_label temp_label)
          ++ ["    dq " ++ END_MARKER]))
  ++ ["    dq " ++ END_MARKER, END_MARKER ++ ":"]

/-- Whole assembly listing written to the created file, src/main.rs lines
132-228: the three global lines, the extern lines, a blank line, the data
section, the text section header and function bodies, a blank line, and
the pointer map.  Each list element is one written unit. -/
def asmLines (B : Backend) (fragments : List (Fragment B)) : List String :=
  ["global main", "global " ++ POINTER_MAP_NAME, "global " ++ END_MARKER]
  ++ B.external_functions.map (fun function_name => "extern " ++ function_name)
  ++ [""]
  ++ ["section .data", "    align 2"]
  ++ fragments.flatMap (dataLines B)
  ++ ["\nsection .text"]
  ++ (textLoop B 0 fragments).1
  ++ [""]
  ++ pointerMapLines B (textLoop B 0 fragments).2.1

/-- Error kind of the error module.  Modelled from the spec: the error
module is not among the two source files; section 7 of the spec says a
single error kind carries a source position and a payload that is
lexical, syntactic, semantic, or I/O.  Positions and payloads are
abstracted to strings. -/
inductive Error where
  | lexical (msg : String)
  | syntactic (msg : String)
  | semantic (msg : String)
  | io (msg : String)
deriving DecidableEq, Repr

/-- Environment of one driver run: the process arguments, the outcomes of
the fallible front-end calls and I/O operations the driver makes, and the
pure front-end transforms.  The parser, rewriter and semantic analyser are
repository modules outside the two source files, so they appear as abstract
parameters; escape analysis and environment construction cannot fail and
produce data consumed only inside the analyser, so they are folded into
the analyze parameter.  nasm_status models the status call on the nasm
command: none is a spawn error, some b an exit with success flag b.
gcc_lib_dir models get_gcc_lib_dir (a directory scan under /usr). -/
structure DriveEnv (B : Backend) where
  Ast : Type
  argv : List String
  open_result : String → Except Error Unit
  parse : Except Error Ast
  rewrite : Ast → Ast
  analyze : Ast → Except Error (List (Fragment B))
  create_result : Except Error Unit
  nasm_status : Option Bool
  gcc_lib_dir : Except Error String

/-- Result of a driver run: the returned value, the units written to the
created assembly file, and the event trace. -/
structure DriveOut where
  result : Except Error Unit
  lines : List String
  events : List Event

/-- Arguments of the ld invocation, src/main.rs lines 243-251. -/
def ldArgs (executable_output_path : TigerPath) (gcc_lib_dir : String)
    (object_output_path : TigerPath) : List String :=
  ["-dynamic-linker", "/lib64/ld-linux-x86-64.so.2", "-o",
   executable_output_path.render,
   "/usr/lib/Scrt1.o", "/usr/lib/crti.o", "-L" ++ gcc_lib_dir,
   "-L/usr/lib64/",
   object_output_path.render,
   "target/debug/libruntime.a", "-lpthread", "-ldl", "--no-as-needed",
   "-lc", "-lgcc", "--as-needed", "-lgcc_s", "--no-as-needed",
   "/usr/lib/crtn.o"]

/-- Driver, src/main.rs lines 102-262.  The first argument is skipped (the
program name); with no positional argument the driver does nothing and
returns Ok.  Otherwise it opens the source, parses, rewrites, finds
escapes, analyzes, creates the assembly file at the source path with its
extension set to s, writes the listing, runs nasm on that path, and on a
successful nasm exit builds the ld argument list (early-returning if the
gcc library directory scan fails) and runs ld.  Every fallible step
propagates its error by early return; a nasm spawn error is only printed.
Write failures on the open file are not modelled. -/
def drive (B : Backend) (E : DriveEnv B) : DriveOut :=
  match (E.argv.drop 1).head? with
  | none => { result := .ok (), lines := [], events := [] }
  | some filename =>
    match E.open_result filename with
    | .error e => { result := .error e, lines := [], events := [] }
    | .ok _ =>
      match E.parse with
      | .error e => { result := .error e, lines := [], events := [] }
      | .ok ast =>
        let ast := E.rewrite ast
        match E.analyze ast with
        | .error e => { result := .error e, lines := [], events := [] }
        | .ok fragments =>
          let asm_output_path := (pathFrom filename).set_extension "s"
          match E.create_result with
          | .error e => { result := .error e, lines := [], events := [] }
          | .ok _ =>
            let lines := asmLines B fragments
            let nasm_args := ["-f", "elf64", asm_output_path.render]
            let events :=
              Event.create_file asm_output_path
                :: (textLoop B 0 fragments).2.2
                ++ [Event.write_pointer_map, Event.run_nasm nasm_args]
            match E.nasm_status with
            | none => { result := .ok (), lines := lines, events := events }
            | some false => { result := .ok (), lines := lines, events := events }
            | some true =>
              match E.gcc_lib_dir with
              | .error e => { result := .error e, lines := lines, events := events }
              | .ok dir =>
                let object_output_path := (pathFrom filename).set_extension "o"
                let executable_output_path := (pathFrom filename).set_extension ""
                { result := .ok (), lines := lines,
                  events := events
                    ++ [Event.run_ld
                          (ldArgs executable_output_path dir object_output_path)] }

/-- Process model of main, src/main.rs lines 91-100: run the driver; on an
error, render the diagnostic to standard error.  main returns unit and the
program never calls an exit function, so the process exit status is 0 on
every path through main; the second component is the list of diagnostics
printed to stderr.  The renderer (error.show with the terminal) lives
outside the two source files and is a parameter. -/
def mainModel (render : Error → String) (out : DriveOut) :
    Nat × List String :=
  match out.result with
  | .ok _ => (0, [])
  | .error e => (0, [render e])

/-- ANSI constants of src/terminal.rs lines 27-31. -/
def BOLD : String := "\x1b[1m"

/-- ANSI blue escape of src/terminal.rs. -/
def BLUE : String := "\x1b[34m"

/-- ANSI end-bold escape of src/terminal.rs. -/
def END_BOLD : String := "\x1b[22m"

/-- ANSI red escape of src/terminal.rs. -/
def RED : String := "\x1b[31m"

/-- ANSI colour reset escape of src/terminal.rs. -/
def RESET_COLOR : String := "\x1b[39;49m"

/-- Terminal of src/terminal.rs: records whether standard error is a
terminal at construction time. -/
structure Terminal where
  is_a_tty : Bool
deriving DecidableEq, Repr

/-- Terminal construction, src/terminal.rs lines 38-42; the isatty probe
of the stderr file descriptor is an input of the model. -/
def Terminal.new (stderr_is_a_tty : Bool) : Terminal :=
  { is_a_tty := stderr_is_a_tty }

/-- Accessor bold, src/terminal.rs lines 44-51. -/
def Terminal.bold (t : Terminal) : String :=
  if t.is_a_tty then BOLD else ""

/-- Accessor blue, src/terminal.rs lines 53-60. -/
def Terminal.blue (t : Terminal) : String :=
  if t.is_a_tty then BLUE else ""

/-- Accessor end_bold, src/terminal.rs lines 62-69. -/
def Terminal.end_bold (t : Terminal) : String :=
  if t.is_a_tty then END_BOLD else ""

/-- Accessor red, src/terminal.rs lines 71-78. -/
def Terminal.red (t : Terminal) : String :=
  if t.is_a_tty then RED else ""

/-- Accessor reset_color, src/terminal.rs lines 80-87. -/
def Terminal.reset_color (t : Terminal) : String :=
  if t.is_a_tty then RESET_COLOR else ""

/-! Spec-side definitions.  Each follows the words of a claim, to be
compared with the definitions above, which follow the source. -/

/-- Pointer-map table as claim C1 words it: the table label, then for each
entry a dq of the call-site label followed by one dq per pointer-holding
temp label and a terminating dq of the end marker; the whole table is
terminated by one more dq of the end marker, immediately followed by the
end-marker label. -/
def pointer_map_table_claim (entries : List (String × List String)) :
    List String :=
  ("__tiger_pointer_map" ++ ":")
  :: entries.flatMap
      (fun entry =>
        ("    dq " ++ entry.1)
        :: entry.2.map (fun temp_label => "    dq " ++ temp_label)
        ++ ["    dq " ++ "__tiger_pointer_map_end"])
  ++ ["    dq " ++ "__tiger_pointer_map_end",
      "__tiger_pointer_map_end" ++ ":"]

/-- Call-site entries of the emitted table, with temp labels rendered:
the per-function maps returned by register allocation, flattened in
order. -/
def entriesOf (B : Backend)
    (pointer_map : List (List (String × List B.TempLabel))) :
    List (String × List String) :=
  pointer_map.flatten.map
    (fun entry => (entry.1, entry.2.map B.temp_label_to_label))

/-- Pointer-map entries a Function fragment contributes, as claim C3 words
it: the temp map returned by that function's register allocation.  The
stages before alloc are applied as the driver applies them, and the second
component of the alloc result is taken. -/
def alloc_temp_map (B : Backend) (body : B.Stmt)
    (escaping_vars : B.EscapingVars) (frame : B.Frame)
    (temp_map : B.TempMap) : List (String × List B.TempLabel) :=
  let (body, frame) := B.proc_entry_exit1 frame body
  let (blocks, done_label) := B.basic_blocks (B.linearize body)
  let statements := B.trace_schedule blocks done_label
  let instructions :=
    B.get_result (statements.foldl B.munch_statement B.gen_new)
  let (instructions, frame) := B.proc_entry_exit2 frame instructions escaping_vars
  ((B.alloc instructions frame temp_map).1).2

/-- Temp map contributed by an arbitrary fragment: allocation output for a
Function fragment, nothing for data fragments. -/
def fragment_alloc_map (B : Backend) :
    Fragment B → Option (List (String × List B.TempLabel))
  | .Function body escaping_vars frame temp_map =>
      some (alloc_temp_map B body escaping_vars frame temp_map)
  | .Str _ _ => none
  | .VTable _ _ => none

/-- Data-section emission for a Str fragment as claim C4 words it: a label
followed by a dq of the string type descriptor, then exactly the data
layout size minus one zero quadwords, then the NUL-terminated string
bytes. -/
def str_data_lines_claim (string_type : String) (layout_size : Nat)
    (label string : String) : List String :=
  ("    " ++ label ++ ": " ++ "dq " ++ string_type)
  :: List.replicate (layout_size - 1) "dq 0"
  ++ ["db " ++ to_nasm string ++ ", 0"]

/-- Text of a list of written units: the file contents they produce, with
one newline after each unit. -/
def writtenText (lines : List String) : String :=
  String.join (lines.map (fun line => line ++ "\n"))

/-- Data-section emission for a VTable fragment as claim C4 words it: the
class label followed by one dq line per method label in order, and nothing
after the label when the method list is empty. -/
def vtable_lines_claim (cls : String) (methods : List String) :
    List String :=
  (cls ++ ":") :: methods.map (fun method => "    dq " ++ method)

/-- Per-character replacement of to_nasm as claim C9 words it: every
single-quote, newline and tab is replaced by a quote-comma, the decimal
character code, comma-quote sequence, and every other character is copied
unchanged. -/
def to_nasm_char_claim (c : Char) : String :=
  if c = '\'' ∨ c = '\n' ∨ c = '\t' then
    "', " ++ toString c.toNat ++ ", '"
  else
    String.singleton c

/-- Whole to_nasm output as claim C9 words it: a single quote, the
replaced characters in order, a single quote. -/
def to_nasm_claim (string : String) : String :=
  "'" ++ String.join (string.toList.map to_nasm_char_claim) ++ "'"

/-- Function-fragment pipeline as claim C7 words it, stage by stage:
proc_entry_exit1 on the body, then linearize, then basic_blocks which also
returns the done label, then trace_schedule with that done label, then
instruction selection by munching each scheduled statement, then
proc_entry_exit2, then register allocation, then proc_entry_exit3. -/
def pipeline_claim (B : Backend) (body : B.Stmt)
    (escaping_vars : B.EscapingVars) (frame : B.Frame)
    (temp_map : B.TempMap) :
    Subroutine B.Instr × List (String × List B.TempLabel) :=
  let stage1 := B.proc_entry_exit1 frame body
  let stage2 := B.linearize stage1.1
  let stage3 := B.basic_blocks stage2
  let stage4 := B.trace_schedule stage3.1 stage3.2
  let stage5 := B.get_result (stage4.foldl B.munch_statement B.gen_new)
  let stage6 := B.proc_entry_exit2 stage1.2 stage5 escaping_vars
  let stage7 := B.alloc stage6.1 stage6.2 temp_map
  let stage8 := B.proc_entry_exit3 stage7.2 stage7.1.1
  (stage8.1, stage7.1.2)

/-- Occurrence order in a trace: a occurs strictly before b. -/
def Before (a b : Event) (trace : List Event) : Prop :=
  ∃ l1 l2 l3, trace = l1 ++ a :: (l2 ++ b :: l3)

/-! Concrete instances used by the witness theorems. -/

/-- Trivial backend instance: every abstract stage is a constant. -/
def demoBackend : Backend where
  Stmt := Unit
  Instr := Unit
  Frame := Unit
  GenSt := Unit
  TempMap := Unit
  TempLabel := Unit
  EscapingVars := Unit
  external_functions := ["print", "printi"]
  STRING_TYPE := "2"
  STRING_DATA_LAYOUT_SIZE := 2
  proc_entry_exit1 := fun frame body => (body, frame)
  linearize := fun body => [body]
  basic_blocks := fun statements => ([statements], "done")
  trace_schedule := fun blocks _ => blocks.flatten
  gen_new := ()
  munch_statement := fun generator _ => generator
  get_result := fun _ => [(), ()]
  proc_entry_exit2 := fun frame instructions _ => (instructions, frame)
  alloc := fun instructions frame _ =>
    ((instructions, [("l7", [(), ()])]), frame)
  proc_entry_exit3 := fun frame instructions =>
    ({ prolog := "f:", body := instructions, epilog := "ret" }, frame)
  instr_to_string := fun _ => "mov rax, rbx"
  temp_label_to_label := fun _ => "0"

/-- Driver environment of a successful run on demoBackend, compiling one
function fragment, one string fragment and one vtable fragment. -/
def demoEnv : DriveEnv demoBackend where
  Ast := Unit
  argv := ["tiger", "test.tig"]
  open_result := fun _ => .ok ()
  parse := .ok ()
  rewrite := fun ast => ast
  analyze := fun _ => .ok
    [Fragment.Function () () () (),
     Fragment.Str "l1" "hi",
     Fragment.VTable "C1_vtable" ["C1_m"]]
  create_result := .ok ()
  nasm_status := some true
  gcc_lib_dir := .ok "/usr/lib64/gcc/x86_64-pc-linux-gnu/12"

/-- Driver environment whose parse step fails. -/
def demoEnvParseErr : DriveEnv demoBackend :=
  { demoEnv with parse := .error (Error.syntactic "expected expression") }

/-- Driver environment whose semantic analysis fails. -/
def demoEnvSemErr : DriveEnv demoBackend :=
  { demoEnv with analyze := fun _ => .error (Error.semantic "type mismatch") }

/-- Driver environment with no positional argument. -/
def demoEnvNoArg : DriveEnv demoBackend :=
  { demoEnv with argv := ["tiger"] }

/-! Helper lemmas. -/

/-- Pushing a character appends the singleton string. -/
theorem string_push_eq (s : String) (c : Char) :
    s.push c = s ++ String.singleton c := by
  apply String.ext
  simp [String.push, String.singleton]

/-- Join of a cons. -/
theorem string_join_cons (s : String) (l : List String) :
    String.join (s :: l) = s ++ String.join l := by
  apply String.ext
  simp

/-- Character replacement of the driver's to_nasm match agrees with the
claim-side per-character function. -/
theorem to_nasm_char_eq (c : Char) :
    (match c with
     | '\'' | '\n' | '\t' => "', " ++ toString c.toNat ++ ", '"
     | _ => String.singleton c) = to_nasm_char_claim c := by
  unfold to_nasm_char_claim
  split
  · simp
  · simp
  · simp
  · rename_i h1 h2 h3
    simp_all

/-- Folding the to_nasm character step is appending the join of the
per-character replacements. -/
theorem to_nasm_foldl (l : List Char) (a : String) :
    l.foldl
      (fun result char =>
        result ++
          match char with
          | '\'' | '\n' | '\t' => "', " ++ toString char.toNat ++ ", '"
          | _ => String.singleton char)
      a
    = a ++ String.join (l.map to_nasm_char_claim) := by
  induction l generalizing a with
  | nil => simp [String.join]
  | cons c cs ih =>
      rw [List.foldl_cons, ih, to_nasm_char_eq, List.map_cons,
        string_join_cons, String.append_assoc]

/-- Claim C9: for every input string, to_nasm returns a string that begins
and ends with a single-quote character, in which every single-quote,
newline and tab of the input is replaced by the quote-comma, decimal
character code, comma-quote sequence and every other character is copied
unchanged in order. -/
theorem to_nasm_eq_claim (s : String) : to_nasm s = to_nasm_claim s := by
  unfold to_nasm to_nasm_claim
  simp only [to_nasm_foldl, string_push_eq]
  rfl

/-- Claim C8: every colour accessor of Terminal returns the corresponding
ANSI escape sequence when standard error is a terminal and the empty
string otherwise, so diagnostics are coloured exactly when stderr is a
tty. -/
theorem terminal_colour_accessors (stderr_is_a_tty : Bool) :
    ((Terminal.new stderr_is_a_tty).bold =
      if stderr_is_a_tty then "\x1b[1m" else "") ∧
    ((Terminal.new stderr_is_a_tty).blue =
      if stderr_is_a_tty then "\x1b[34m" else "") ∧
    ((Terminal.new stderr_is_a_tty).end_bold =
      if stderr_is_a_tty then "\x1b[22m" else "") ∧
    ((Terminal.new stderr_is_a_tty).red =
      if stderr_is_a_tty then "\x1b[31m" else "") ∧
    ((Terminal.new stderr_is_a_tty).reset_color =
      if stderr_is_a_tty then "\x1b[39;49m" else "") := by
  cases stderr_is_a_tty <;>
    simp [Terminal.new, Terminal.bold, Terminal.blue, Terminal.end_bold,
      Terminal.red, Terminal.reset_color, BOLD, BLUE, END_BOLD, RED,
      RESET_COLOR]

/-- Claim C10: when the program is invoked with no positional argument,
drive performs no compilation and returns Ok, so the process writes
nothing, performs no external action, prints no diagnostic, and exits
with code 0. -/
theorem no_positional_argument_noop (B : Backend) (E : DriveEnv B)
    (render : Error → String)
    (h : (E.argv.drop 1).head? = none) :
    drive B E = { result := .ok (), lines := [], events := [] } ∧
    mainModel render (drive B E) = (0, []) := by
  unfold drive
  rw [h]
  exact ⟨rfl, rfl⟩

/-- Witness for claim C10: the run on the environment with a lone program
name neither compiles nor reports. -/
theorem no_positional_argument_noop_witness :
    drive demoBackend demoEnvNoArg =
      { result := .ok (), lines := [], events := [] } ∧
    mainModel (fun _ => "") (drive demoBackend demoEnvNoArg) = (0, []) :=
  no_positional_argument_noop demoBackend demoEnvNoArg (fun _ => "") rfl

/-- Claim C2 counterexample: a run whose parse step fails with a syntactic
error still leaves the process with exit code 0, against the claim that
every failing compilation exits non-zero. -/
theorem exit_code_counterexample :
    (drive demoBackend demoEnvParseErr).result =
      Except.error (Error.syntactic "expected expression") ∧
    (mainModel (fun _ => "syntax error") (drive demoBackend demoEnvParseErr)).1
      = 0 :=
  ⟨rfl, rfl⟩

/-- Claim C2 as amended: the process exits with code 0 on successful
compilation and also with code 0 on compilation or I/O error; failure is
signalled only by the diagnostic printed to standard error, never by the
exit code, because main returns unit after showing the error. -/
theorem exit_code_amended (B : Backend) (E : DriveEnv B)
    (render : Error → String) :
    (mainModel render (drive B E)).1 = 0 := by
  unfold mainModel
  cases h : (drive B E).result <;> simp

/-- Wrapping each element of a list between a fixed head string and a
fixed tail string and joining is the same as joining with the tail-head
concatenation interposed by the intercalate worker. -/
theorem intercalate_wrap (p q : String) :
    ∀ (ms : List String) (m : String),
      p ++ String.intercalate.go m (q ++ p) ms ++ q
        = String.join ((m :: ms).map (fun x => p ++ x ++ q)) := by
  intro ms
  induction ms with
  | nil =>
      intro m
      show p ++ m ++ q = String.join [p ++ m ++ q]
      rw [string_join_cons]
      show p ++ m ++ q = p ++ m ++ q ++ ""
      rw [String.append_empty]
  | cons a as ih =>
      intro m
      rw [show String.intercalate.go m (q ++ p) (a :: as)
            = String.intercalate.go (m ++ (q ++ p) ++ a) (q ++ p) as from rfl]
      rw [ih (m ++ (q ++ p) ++ a)]
      simp only [List.map_cons, string_join_cons, String.append_assoc]

/-- Written text of a cons of units. -/
theorem writtenText_cons (x : String) (xs : List String) :
    writtenText (x :: xs) = (x ++ "\n") ++ writtenText xs := by
  unfold writtenText
  rw [List.map_cons, string_join_cons]

/-- Written text respects replacing the tail by one of equal text. -/
theorem writtenText_cons_congr (x : String) {xs ys : List String}
    (h : writtenText xs = writtenText ys) :
    writtenText (x :: xs) = writtenText (x :: ys) := by
  rw [writtenText_cons, h, ← writtenText_cons]

/-- Single written unit built by joining dq lines produces the same file
text as one dq line per method. -/
theorem vtable_unit_text (m : String) (ms : List String) :
    writtenText ["    dq " ++ String.intercalate "\n    dq " (m :: ms)]
      = writtenText ((m :: ms).map (fun x => "    dq " ++ x)) := by
  have hsep : ("\n    dq " : String) = "\n" ++ "    dq " := by decide
  unfold writtenText
  rw [show String.intercalate "\n    dq " (m :: ms)
        = String.intercalate.go m "\n    dq " ms from rfl, hsep]
  rw [List.map_cons, List.map_nil, string_join_cons]
  rw [show (String.join [] : String) = "" from rfl, String.append_empty]
  rw [intercalate_wrap "    dq " "\n" ms m]
  rw [List.map_map]
  rfl

/-- Claim C4: a Str fragment is emitted into the data section as a label
followed by a dq of the string type descriptor, then exactly the data
layout size minus one zero quadwords, then the NUL-terminated string
bytes; a VTable fragment produces the same file text as its class label
followed by one dq line per method label in order, with nothing after the
label when the method list is empty. -/
theorem data_section_emission (B : Backend) (label string cls : String)
    (methods : List String) :
    dataLines B (Fragment.Str label string)
      = str_data_lines_claim B.STRING_TYPE B.STRING_DATA_LAYOUT_SIZE
          label string ∧
    writtenText (dataLines B (Fragment.VTable cls methods))
      = writtenText (vtable_lines_claim cls methods) := by
  refine ⟨rfl, ?_⟩
  cases methods with
  | nil => rfl
  | cons m ms =>
      simp only [dataLines, vtable_lines_claim, List.isEmpty_cons,
        Bool.false_eq_true, if_false]
      exact writtenText_cons_congr (cls ++ ":") (vtable_unit_text m ms)

/-- Claim C7: for every Function fragment the driver applies the stages
in the fixed order proc_entry_exit1, linearize, basic_blocks (which also
returns the done label), trace_schedule with that done label, instruction
selection by munching the scheduled statements, proc_entry_exit2, register
allocation, proc_entry_exit3; the lines written are the resulting
subroutine's and the pointer-map entries are the allocation's. -/
theorem function_pipeline_order (B : Backend) (body : B.Stmt)
    (escaping_vars : B.EscapingVars) (frame : B.Frame)
    (temp_map : B.TempMap) :
    processFunction B body escaping_vars frame temp_map
      = ((pipeline_claim B body escaping_vars frame temp_map).1.prolog ::
          ((((pipeline_claim B body escaping_vars frame temp_map).1.body.map
              B.instr_to_string).filter
              (fun instruction => !instruction.isEmpty)).map
            (fun instruction => "    " ++ instruction))
          ++ ["    " ++
                (pipeline_claim B body escaping_vars frame temp_map).1.epilog],
         (pipeline_claim B body escaping_vars frame temp_map).2) := rfl

/-- Mapping over a flattened list of lists is flat-mapping the inner
flat-map. -/
theorem flatten_flatMap {α β : Type} (l : List (List α)) (f : α → List β) :
    l.flatten.flatMap f = l.flatMap (fun xs => xs.flatMap f) := by
  induction l with
  | nil => rfl
  | cons x xs ih => simp [ih]

/-- Flat-map of pointwise equal functions agree. -/
theorem flatMap_congr_fun {α β : Type} (l : List α) {f g : α → List β}
    (h : ∀ a, f a = g a) : l.flatMap f = l.flatMap g := by
  induction l with
  | nil => rfl
  | cons x xs ih => simp [h, ih]

/-- Emitted pointer-map lines coincide with the claim-side table over the
collected entries with rendered temp labels. -/
theorem pointerMapLines_eq_claim (B : Backend)
    (pointer_map : List (List (String × List B.TempLabel))) :
    pointerMapLines B pointer_map
      = pointer_map_table_claim (entriesOf B pointer_map) := by
  unfold pointerMapLines pointer_map_table_claim entriesOf POINTER_MAP_NAME
    END_MARKER
  rw [← flatten_flatMap, List.flatMap_map]
  have h := flatMap_congr_fun (f := fun entry : String × List B.TempLabel =>
      ("    dq " ++ entry.1)
      :: entry.2.map
          (fun temp_label => "    dq " ++ B.temp_label_to_label temp_label)
      ++ ["    dq " ++ "__tiger_pointer_map_end"])
    (g := fun a : String × List B.TempLabel =>
      ("    dq " ++ (a.1, a.2.map B.temp_label_to_label).1)
      :: ((a.1, a.2.map B.temp_label_to_label).2).map
          (fun temp_label => "    dq " ++ temp_label)
      ++ ["    dq " ++ "__tiger_pointer_map_end"])
    pointer_map.flatten
    (by intro a; simp [List.map_map, Function.comp])
  rw [h]

/-- Claim C1: after all function bodies are emitted the driver writes the
pointer-map table, the label, one record per collected call-site entry (dq
of the call-site label, one dq per pointer-holding temp label, a dq of the
end marker), one final dq of the end marker immediately followed by the
end-marker label; and the three symbols main, the table symbol, and the
end-marker symbol are declared global in the first three lines of the
file. -/
theorem pointer_map_emission (B : Backend) (fragments : List (Fragment B)) :
    asmLines B fragments
      = (["global main", "global " ++ POINTER_MAP_NAME,
          "global " ++ END_MARKER]
         ++ B.external_functions.map
              (fun function_name => "extern " ++ function_name)
         ++ [""]
         ++ ["section .data", "    align 2"]
         ++ fragments.flatMap (dataLines B)
         ++ ["\nsection .text"]
         ++ (textLoop B 0 fragments).1
         ++ [""])
        ++ pointer_map_table_claim
            (entriesOf B (textLoop B 0 fragments).2.1) ∧
    (asmLines B fragments).take 3
      = ["global main", "global " ++ "__tiger_pointer_map",
         "global " ++ "__tiger_pointer_map_end"] := by
  constructor
  · unfold asmLines
    rw [pointerMapLines_eq_claim]
  · rfl

/-- Claim C6: if parsing or semantic analysis returns an error, the driver
returns that error by early return before the output assembly file is
created: nothing is written, no file-creation event occurs, no external
command runs. -/
theorem front_end_error_no_output (B : Backend) (E : DriveEnv B)
    (filename : String) (e : Error)
    (hargv : (E.argv.drop 1).head? = some filename)
    (hopen : E.open_result filename = .ok ())
    (herr : E.parse = .error e ∨
      ∃ ast, E.parse = .ok ast ∧ E.analyze (E.rewrite ast) = .error e) :
    (drive B E).result = .error e ∧
    (drive B E).lines = [] ∧
    (drive B E).events = [] := by
  rcases herr with h | ⟨ast, hp, ha⟩
  · simp only [drive, hargv, hopen, h]
    exact ⟨trivial, trivial, trivial⟩
  · simp only [drive, hargv, hopen, hp, ha]
    exact ⟨trivial, trivial, trivial⟩

/-- Witness for claim C6: the run whose parse fails creates no file and
returns the parse error. -/
theorem front_end_error_no_output_witness :
    (drive demoBackend demoEnvParseErr).result
      = .error (Error.syntactic "expected expression") ∧
    (drive demoBackend demoEnvParseErr).lines = [] ∧
    (drive demoBackend demoEnvParseErr).events = [] :=
  front_end_error_no_output demoBackend demoEnvParseErr "test.tig"
    (Error.syntactic "expected expression") rfl rfl (Or.inl rfl)

/-- Predicate picking out ld invocations in the trace. -/
def isRunLd : Event → Bool
  | .run_ld _ => true
  | _ => false

/-- Per-fragment processing never spawns ld. -/
theorem textLoop_no_run_ld (B : Backend) :
    ∀ (fragments : List (Fragment B)) (i : Nat),
      ((textLoop B i fragments).2.2).filter isRunLd = [] := by
  intro fragments
  induction fragments with
  | nil => intro i; rfl
  | cons f rest ih =>
      intro i
      cases f with
      | Function body escaping_vars frame temp_map =>
          simp [textLoop, functionStageEvents, isRunLd, List.filter_append,
            ih]
      | Str label string => simp [textLoop, ih]
      | VTable cls methods => simp [textLoop, ih]

/-- Claim C5: the assembly listing is written to the source path with its
extension replaced by s; the driver invokes nasm with the elf64 format on
that file; and an ld invocation occurs exactly when nasm exited
successfully and the gcc library directory scan succeeded, with the
executable at the extension-less path named by the output flag inside the
fixed argument list. -/
theorem nasm_then_ld (B : Backend) (E : DriveEnv B) (filename : String)
    (ast : E.Ast) (fragments : List (Fragment B))
    (hargv : (E.argv.drop 1).head? = some filename)
    (hopen : E.open_result filename = .ok ())
    (hparse : E.parse = .ok ast)
    (hanalyze : E.analyze (E.rewrite ast) = .ok fragments)
    (hcreate : E.create_result = .ok ()) :
    (drive B E).lines = asmLines B fragments ∧
    Event.create_file ((pathFrom filename).set_extension "s")
      ∈ (drive B E).events ∧
    Event.run_nasm ["-f", "elf64",
        ((pathFrom filename).set_extension "s").render]
      ∈ (drive B E).events ∧
    (drive B E).events.filter isRunLd
      = (match E.nasm_status, E.gcc_lib_dir with
         | some true, .ok dir =>
            [Event.run_ld
              (ldArgs ((pathFrom filename).set_extension "") dir
                ((pathFrom filename).set_extension "o"))]
         | _, _ => []) := by
  simp only [drive, hargv, hopen, hparse, hanalyze, hcreate]
  cases hn : E.nasm_status with
  | none =>
      refine ⟨rfl, by simp, by simp, ?_⟩
      simp [List.filter_append, textLoop_no_run_ld, isRunLd]
  | some b =>
      cases b with
      | false =>
          refine ⟨rfl, by simp, by simp, ?_⟩
          simp [List.filter_append, textLoop_no_run_ld, isRunLd]
      | true =>
          cases hg : E.gcc_lib_dir with
          | error e =>
              refine ⟨rfl, by simp, by simp, ?_⟩
              simp [List.filter_append, textLoop_no_run_ld, isRunLd]
          | ok dir =>
              refine ⟨rfl, by simp, by simp, ?_⟩
              simp [List.filter_append, textLoop_no_run_ld, isRunLd]

/-- Witness for claim C5: the demo run creates the s file, invokes nasm on
it, and invokes ld once because nasm succeeded. -/
theorem nasm_then_ld_witness :
    (drive demoBackend demoEnv).lines
      = asmLines demoBackend
          [Fragment.Function () () () (),
           Fragment.Str "l1" "hi",
           Fragment.VTable "C1_vtable" ["C1_m"]] ∧
    Event.create_file ((pathFrom "test.tig").set_extension "s")
      ∈ (drive demoBackend demoEnv).events ∧
    Event.run_nasm ["-f", "elf64",
        ((pathFrom "test.tig").set_extension "s").render]
      ∈ (drive demoBackend demoEnv).events ∧
    (drive demoBackend demoEnv).events.filter isRunLd
      = (match demoEnv.nasm_status, demoEnv.gcc_lib_dir with
         | some true, .ok dir =>
            [Event.run_ld
              (ldArgs ((pathFrom "test.tig").set_extension "") dir
                ((pathFrom "test.tig").set_extension "o"))]
         | _, _ => []) :=
  nasm_then_ld demoBackend demoEnv "test.tig" ()
    [Fragment.Function () () () (),
     Fragment.Str "l1" "hi",
     Fragment.VTable "C1_vtable" ["C1_m"]]
    rfl rfl rfl rfl rfl

/-- Collected pointer maps of the text-section loop are exactly the
allocation outputs of the Function fragments, in order. -/
theorem textLoop_maps (B : Backend) :
    ∀ (fragments : List (Fragment B)) (i : Nat),
      (textLoop B i fragments).2.1
        = fragments.filterMap (fragment_alloc_map B) := by
  intro fragments
  induction fragments with
  | nil => intro i; rfl
  | cons f rest ih =>
      intro i
      cases f with
      | Function body escaping_vars frame temp_map =>
          simp only [textLoop, List.filterMap_cons, fragment_alloc_map]
          exact congrArg₂ _ rfl (ih (i + 1))
      | Str label string =>
          simp only [textLoop, List.filterMap_cons, fragment_alloc_map]
          exact ih (i + 1)
      | VTable cls methods =>
          simp only [textLoop, List.filterMap_cons, fragment_alloc_map]
          exact ih (i + 1)

/-- Event trace of the text-section loop around a Function fragment at
position j: the allocation event precedes the write event of the same
fragment. -/
theorem textLoop_before (B : Backend) :
    ∀ (fragments : List (Fragment B)) (i j : Nat) (hj : j < fragments.length),
      (fragments.get ⟨j, hj⟩).isFunction = true →
      ∃ l1 l2 l3,
        (textLoop B i fragments).2.2
          = l1 ++ Event.stage_alloc (i + j)
              :: (l2 ++ Event.write_function (i + j) :: l3) := by
  intro fragments
  induction fragments with
  | nil => intro i j hj; exact absurd hj (by simp)
  | cons f rest ih =>
      intro i j hj hfn
      cases j with
      | zero =>
          cases f with
          | Function body escaping_vars frame temp_map =>
              refine ⟨[Event.stage_entry_exit1 i, Event.stage_linearize i,
                  Event.stage_basic_blocks i, Event.stage_trace_schedule i,
                  Event.stage_munch i, Event.stage_entry_exit2 i],
                [Event.stage_entry_exit3 i],
                (textLoop B (i + 1) rest).2.2, ?_⟩
              simp [textLoop, functionStageEvents]
          | Str label string =>
              exact absurd hfn (by simp [List.get, Fragment.isFunction])
          | VTable cls methods =>
              exact absurd hfn (by simp [List.get, Fragment.isFunction])
      | succ k =>
          have hk : k < rest.length := Nat.succ_lt_succ_iff.mp hj
          have hfn2 : (rest.get ⟨k, hk⟩).isFunction = true := hfn
          obtain ⟨l1, l2, l3, hl⟩ := ih (i + 1) k hk hfn2
          have harith : i + (k + 1) = (i + 1) + k := by omega
          cases f with
          | Function body escaping_vars frame temp_map =>
              refine ⟨functionStageEvents i ++ l1, l2, l3, ?_⟩
              simp [textLoop, hl, harith, List.append_assoc]
          | Str label string =>
              refine ⟨l1, l2, l3, ?_⟩
              simp [textLoop, hl, harith]
          | VTable cls methods =>
              refine ⟨l1, l2, l3, ?_⟩
              simp [textLoop, hl, harith]

/-- Claim C3: for every Function fragment, register allocation completes
and yields the final assignment before any of that function's
instructions are written and before the pointer map is written, and the
pointer-map entries written at the end are the temp maps returned by the
allocation of each Function fragment, in order. -/
theorem alloc_before_emission (B : Backend) (E : DriveEnv B)
    (filename : String) (ast : E.Ast) (fragments : List (Fragment B))
    (j : Nat)
    (hargv : (E.argv.drop 1).head? = some filename)
    (hopen : E.open_result filename = .ok ())
    (hparse : E.parse = .ok ast)
    (hanalyze : E.analyze (E.rewrite ast) = .ok fragments)
    (hcreate : E.create_result = .ok ())
    (hj : j < fragments.length)
    (hfn : (fragments.get ⟨j, hj⟩).isFunction = true) :
    Before (Event.stage_alloc j) (Event.write_function j)
      (drive B E).events ∧
    Before (Event.stage_alloc j) Event.write_pointer_map
      (drive B E).events ∧
    (drive B E).lines = asmLines B fragments ∧
    (textLoop B 0 fragments).2.1
      = fragments.filterMap (fragment_alloc_map B) := by
  obtain ⟨l1, l2, l3, hl⟩ := textLoop_before B fragments 0 j hj hfn
  rw [Nat.zero_add] at hl
  have hshape : ∃ tail,
      (drive B E).events
        = Event.create_file ((pathFrom filename).set_extension "s")
            :: ((textLoop B 0 fragments).2.2
                ++ Event.write_pointer_map
                :: Event.run_nasm
                    ["-f", "elf64",
                     ((pathFrom filename).set_extension "s").render]
                :: tail) ∧
      (drive B E).lines = asmLines B fragments := by
    simp only [drive, hargv, hopen, hparse, hanalyze, hcreate]
    cases hn : E.nasm_status with
    | none => exact ⟨[], by simp, rfl⟩
    | some b =>
        cases b with
        | false => exact ⟨[], by simp, rfl⟩
        | true =>
            cases hg : E.gcc_lib_dir with
            | error e => exact ⟨[], by simp, rfl⟩
            | ok dir =>
                refine ⟨[Event.run_ld
                    (ldArgs ((pathFrom filename).set_extension "") dir
                      ((pathFrom filename).set_extension "o"))], ?_, rfl⟩
                simp
  obtain ⟨tail, hev, hlines⟩ := hshape
  refine ⟨?_, ?_, hlines, textLoop_maps B fragments 0⟩
  · refine ⟨Event.create_file ((pathFrom filename).set_extension "s") :: l1,
      l2,
      l3 ++ Event.write_pointer_map
        :: Event.run_nasm
            ["-f", "elf64", ((pathFrom filename).set_extension "s").render]
        :: tail, ?_⟩
    rw [hev, hl]
    simp [List.append_assoc]
  · refine ⟨Event.create_file ((pathFrom filename).set_extension "s") :: l1,
      l2 ++ Event.write_function j :: l3,
      Event.run_nasm
          ["-f", "elf64", ((pathFrom filename).set_extension "s").render]
        :: tail, ?_⟩
    rw [hev, hl]
    simp [List.append_assoc]

/-- Witness for claim C3: in the demo run the function fragment at
position 0 is allocated before its instructions and before the pointer
map are written, and the collected maps are the allocation outputs. -/
theorem alloc_before_emission_witness :
    Before (Event.stage_alloc 0) (Event.write_function 0)
      (drive demoBackend demoEnv).events ∧
    Before (Event.stage_alloc 0) Event.write_pointer_map
      (drive demoBackend demoEnv).events ∧
    (drive demoBackend demoEnv).lines
      = asmLines demoBackend
          [Fragment.Function () () () (),
           Fragment.Str "l1" "hi",
           Fragment.VTable "C1_vtable" ["C1_m"]] ∧
    (textLoop demoBackend 0
        [Fragment.Function () () () (),
         Fragment.Str "l1" "hi",
         Fragment.VTable "C1_vtable" ["C1_m"]]).2.1
      = [Fragment.Function () () () (),
         Fragment.Str "l1" "hi",
         Fragment.VTable "C1_vtable" ["C1_m"]].filterMap
          (fragment_alloc_map demoBackend) :=
  alloc_before_emission demoBackend demoEnv "test.tig" ()
    [Fragment.Function () () () (),
     Fragment.Str "l1" "hi",
     Fragment.VTable "C1_vtable" ["C1_m"]]
    0 rfl rfl rfl rfl rfl (by decide) rfl
